import Mathlib

/-
Verification development for the flight-snapshot enrichment and analytics
pipeline of `projet_pyspark.py`.

Modelling conventions (shallow embedding):
* A Spark DataFrame is a Lean `List` of typed rows; only the columns the
  pipeline reads or writes are modelled.
* Spark SQL comparisons follow three-valued logic: a comparison with a NULL
  operand is neither true nor false, and a `filter`/join keeps a row only
  when the predicate is TRUE.  This is modelled by `Bool`-valued helpers
  (`sqlEq`, `sqlNotIn`) that return `false` whenever an operand is `none`.
* Float arithmetic is modelled over `ℝ`; the CSV `cast("float")` of the
  airport coordinates is modelled by the `Option ℝ` typed fields (a failed
  cast is NULL).
* The three reference CSV files are external inputs, so the corresponding
  catalogs are parameters of the enrichment functions; the normalisation
  the source applies after reading (column selection, renaming, null-key
  filters) is modelled by the `ref*` functions.
-/

namespace FlightPipeline

/-- One raw flight record (`fr_api.get_flights()` row); only the attributes
the pipeline uses are modelled.  `on_ground` is the 0/1 integer flag the
source compares with `== 0`. -/
structure Flight where
  id : String
  origin_airport_iata : Option String
  destination_airport_iata : Option String
  aircraft_code : Option String
  airline_iata : Option String
  airline_icao : Option String
  on_ground : Nat
deriving DecidableEq

/-- One row of `airports.csv` after the column drop at source line 78:
IATA code, latitude, longitude, continent. -/
structure Airport where
  iata_code : Option String
  latitude_deg : Option ℝ
  longitude_deg : Option ℝ
  continent : Option String

/-- One row of `planes.dat` after the drop/rename at source lines 106-108. -/
structure Aircraft where
  aircraft_name : Option String
  aircraft_code : Option String

/-- One row of `airlines.dat` after the select/rename at source lines 117-120. -/
structure Airline where
  airline_name : Option String
  airline_iata : Option String
  airline_icao : Option String

/-- SQL equality `x == y`: TRUE only when both operands are non-NULL and
equal (a NULL operand yields NULL, which a filter or join treats as
not-TRUE). -/
def sqlEq (x y : Option String) : Bool :=
  match x, y with
  | some a, some b => a == b
  | _, _ => false

/-- SQL `NOT (x IN vs)`: TRUE only when `x` is non-NULL and not in the
list (for NULL `x` the `isin` is NULL, its negation is NULL, and the
filter drops the row). -/
def sqlNotIn (x : Option String) (vs : List String) : Bool :=
  match x with
  | some s => !(vs.contains s)
  | none => false

/-- Spark left-outer join: every left row `x` is paired with each right row
matching the join predicate; a left row with no match is kept once via
`mkNull` (its right-hand attributes NULL). -/
def leftJoin (xs : List α) (ys : List β) (p : α → β → Bool)
    (mk : α → β → γ) (mkNull : α → γ) : List γ :=
  xs.flatMap (fun x =>
    match ys.filter (p x) with
    | [] => [mkNull x]
    | ms => ms.map (mk x))

/-- Spark inner join. -/
def innerJoin (xs : List α) (ys : List β) (p : α → β → Bool)
    (mk : α → β → γ) : List γ :=
  xs.flatMap (fun x => (ys.filter (p x)).map (mk x))

/-- `clean_dataframe` (source lines 41-47): drop rows whose destination or
origin IATA code is the literal "NaN" or "N/A" placeholder — or NULL,
since `~col.isin([...])` is NULL for a NULL column and the filter drops
NULL. -/
def clean_dataframe (df : List Flight) : List Flight :=
  let df1 := df.filter (fun f => sqlNotIn f.destination_airport_iata ["NaN", "N/A"])
  df1.filter (fun f => sqlNotIn f.origin_airport_iata ["NaN", "N/A"])

/-- `math.radians`: degrees to radians. -/
noncomputable def radians (x : ℝ) : ℝ := x * (Real.pi / 180)

/-- `math.atan2 y x` (two-argument arctangent), as in CPython's libm
contract; ℝ has no signed zero, so `atan2 0 0 = 0`. -/
noncomputable def atan2 (y x : ℝ) : ℝ :=
  if 0 < x then Real.arctan (y / x)
  else if x < 0 then
    (if 0 ≤ y then Real.arctan (y / x) + Real.pi else Real.arctan (y / x) - Real.pi)
  else
    (if 0 < y then Real.pi / 2 else if y < 0 then -(Real.pi / 2) else 0)

/-- The `distance` UDF (source lines 54-73): `-1` when any of the four
coordinates is NULL, otherwise the haversine great-circle distance with
Earth-radius constant 6373.0 km. -/
noncomputable def distance (lat1 lon1 lat2 lon2 : Option ℝ) : ℝ :=
  match lat1, lon1, lat2, lon2 with
  | some l1, some o1, some l2, some o2 =>
    let R : ℝ := 6373.0
    let rlat1 := radians l1
    let rlon1 := radians o1
    let rlat2 := radians l2
    let rlon2 := radians o2
    let dlon := rlon2 - rlon1
    let dlat := rlat2 - rlat1
    let a := Real.sin (dlat / 2) ^ 2 +
      Real.cos rlat1 * Real.cos rlat2 * Real.sin (dlon / 2) ^ 2
    let c := 2 * atan2 (Real.sqrt a) (Real.sqrt (1 - a))
    R * c
  | _, _, _, _ => -1

/-- The airport catalog after the normalisation at source lines 77-83:
rows with a NULL IATA code or NULL continent are excluded. -/
def refAirports (airports : List Airport) : List Airport :=
  airports.filter (fun a => a.iata_code.isSome && a.continent.isSome)

/-- Flight after the destination-airport left join (source line 95); the
three attached columns carry the `destination_`-prefixed renames. -/
structure FlightDest extends Flight where
  destination_latitude_deg : Option ℝ
  destination_longitude_deg : Option ℝ
  destination_airport_continent : Option String

/-- Flight after the origin-airport left join (source line 96). -/
structure FlightGeo extends FlightDest where
  origin_latitude_deg : Option ℝ
  origin_longitude_deg : Option ℝ
  origin_airport_continent : Option String

/-- Flight after the `distance` column is attached (source line 98). -/
structure FlightDist extends FlightGeo where
  distance : ℝ

def destJoinRow (f : Flight) (a : Airport) : FlightDest :=
  { toFlight := f
    destination_latitude_deg := a.latitude_deg
    destination_longitude_deg := a.longitude_deg
    destination_airport_continent := a.continent }

def destNull (f : Flight) : FlightDest :=
  { toFlight := f
    destination_latitude_deg := none
    destination_longitude_deg := none
    destination_airport_continent := none }

def originJoinRow (g : FlightDest) (a : Airport) : FlightGeo :=
  { toFlightDest := g
    origin_latitude_deg := a.latitude_deg
    origin_longitude_deg := a.longitude_deg
    origin_airport_continent := a.continent }

def originNull (g : FlightDest) : FlightGeo :=
  { toFlightDest := g
    origin_latitude_deg := none
    origin_longitude_deg := none
    origin_airport_continent := none }

/-- Attach the `distance` column (source line 98): the UDF is applied to
the four coordinate columns just joined. -/
noncomputable def withDistance (g : FlightGeo) : FlightDist :=
  { toFlightGeo := g
    distance := distance g.origin_latitude_deg g.origin_longitude_deg
      g.destination_latitude_deg g.destination_longitude_deg }

/-- The destination-airport left join (source line 95). -/
def destJoin (df : List Flight) (cat : List Airport) : List FlightDest :=
  leftJoin df cat (fun f a => sqlEq f.destination_airport_iata a.iata_code)
    destJoinRow destNull

/-- The origin-airport left join (source line 96). -/
def originJoin (df : List FlightDest) (cat : List Airport) : List FlightGeo :=
  leftJoin df cat (fun g a => sqlEq g.origin_airport_iata a.iata_code)
    originJoinRow originNull

/-- `add_distance_dataframe` (source lines 51-100): destination join, then
origin join (both left-outer against the normalised airport catalog), then
the distance column. -/
noncomputable def add_distance_dataframe (df : List Flight) (airports : List Airport) :
    List FlightDist :=
  (originJoin (destJoin df (refAirports airports)) (refAirports airports)).map withDistance

/-- The aircraft catalog after the filter at source line 109: rows with a
NULL type code are excluded. -/
def refAircrafts (ac : List Aircraft) : List Aircraft :=
  ac.filter (fun a => a.aircraft_code.isSome)

/-- Flight after the aircraft left join (source line 111).  The join is on
a column expression, so the catalog's own `aircraft_code` column is also
kept (duplicate name in the Spark schema); it is modelled as
`aircraft_code_ref`. -/
structure FlightAircraft extends FlightDist where
  aircraft_name : Option String
  aircraft_code_ref : Option String

def aircraftJoinRow (f : FlightDist) (a : Aircraft) : FlightAircraft :=
  { toFlightDist := f
    aircraft_name := a.aircraft_name
    aircraft_code_ref := a.aircraft_code }

def aircraftNull (f : FlightDist) : FlightAircraft :=
  { toFlightDist := f
    aircraft_name := none
    aircraft_code_ref := none }

/-- `add_aircrafts_dataframe` (source lines 103-112). -/
def add_aircrafts_dataframe (df : List FlightDist) (aircrafts : List Aircraft) :
    List FlightAircraft :=
  leftJoin df (refAircrafts aircrafts)
    (fun f a => sqlEq f.aircraft_code a.aircraft_code) aircraftJoinRow aircraftNull

/-- The airline catalog after the filter at source line 122: rows with both
codes NULL are excluded. -/
def refAirlines (al : List Airline) : List Airline :=
  al.filter (fun a => a.airline_iata.isSome || a.airline_icao.isSome)

/-- The fully enriched flight row, after `add_airlines_dataframe`.
After the airline join, `df.drop("airline_icao").drop("airline_iata")`
(source line 125) drops the columns BY NAME; since the join duplicated
both names, every copy is removed — the flight's own `airline_iata` and
`airline_icao` columns disappear together with the catalog's.  Only the
catalog's `airline_name` is attached. -/
structure EnrichedFlight where
  id : String
  origin_airport_iata : Option String
  destination_airport_iata : Option String
  aircraft_code : Option String
  on_ground : Nat
  destination_latitude_deg : Option ℝ
  destination_longitude_deg : Option ℝ
  destination_airport_continent : Option String
  origin_latitude_deg : Option ℝ
  origin_longitude_deg : Option ℝ
  origin_airport_continent : Option String
  distance : ℝ
  aircraft_name : Option String
  aircraft_code_ref : Option String
  airline_name : Option String

/-- Build the post-drop enriched row from a pre-join row and the attached
airline display name. -/
def enrichedOf (f : FlightAircraft) (name : Option String) : EnrichedFlight :=
  { id := f.id
    origin_airport_iata := f.origin_airport_iata
    destination_airport_iata := f.destination_airport_iata
    aircraft_code := f.aircraft_code
    on_ground := f.on_ground
    destination_latitude_deg := f.destination_latitude_deg
    destination_longitude_deg := f.destination_longitude_deg
    destination_airport_continent := f.destination_airport_continent
    origin_latitude_deg := f.origin_latitude_deg
    origin_longitude_deg := f.origin_longitude_deg
    origin_airport_continent := f.origin_airport_continent
    distance := f.distance
    aircraft_name := f.aircraft_name
    aircraft_code_ref := f.aircraft_code_ref
    airline_name := name }

/-- `add_airlines_dataframe` (source lines 114-127): left join on the
disjunctive key (ICAO matches OR IATA matches), then the drop of both
airline-code column names. -/
def add_airlines_dataframe (df : List FlightAircraft) (airlines : List Airline) :
    List EnrichedFlight :=
  leftJoin df (refAirlines airlines)
    (fun f a => sqlEq f.airline_icao a.airline_icao || sqlEq f.airline_iata a.airline_iata)
    (fun f a => enrichedOf f a.airline_name)
    (fun f => enrichedOf f none)

/-- `get_active_flights` (source lines 132-136). -/
def get_active_flights (df : List EnrichedFlight) : List EnrichedFlight :=
  df.filter (fun r => r.on_ground == 0)

/-- The in-process continent table (source lines 152-163), as
(display name, code) pairs. -/
def continentData : List (String × String) :=
  [("North America", "NA"), ("South America", "SA"), ("Europe", "EU"),
   ("Asia", "AS"), ("Africa", "AF"), ("Australia", "OC")]

/-- Display name the continent left join attaches to a continent-code
column (NULL when the code is NULL or not in the table). -/
def continentName (c : Option String) : Option String :=
  match continentData.filter (fun p => sqlEq c (some p.2)) with
  | [] => none
  | p :: _ => some p.1

/-- Grouped counts: one output row per distinct key, whose count is the
number of group members satisfying `counted` (Spark's `COUNT(col)` counts
the rows where `col` is non-NULL). -/
def groupCounts [DecidableEq κ] (key : α → κ) (counted : α → Bool)
    (rows : List α) : List (κ × Nat) :=
  ((rows.map key).dedup).map
    (fun k => (k, ((rows.filter (fun r => decide (key r = k))).filter counted).length))

/-- Descending order on a `Nat` measure, for `ORDER BY ... DESC` (ties
are left in encounter order by the stable sort). -/
def descBy (m : α → Nat) : α → α → Prop := fun a b => m b ≤ m a

instance (m : α → Nat) : DecidableRel (descBy m) := fun a b => Nat.decLe (m b) (m a)

instance (m : α → Nat) : IsTotal α (descBy m) := ⟨fun a b => Nat.le_total (m b) (m a)⟩

instance (m : α → Nat) : IsTrans α (descBy m) := ⟨fun _ _ _ h1 h2 => le_trans h2 h1⟩

/-- `ROW_NUMBER() OVER (PARTITION BY key ORDER BY ...) <= k`: within each
partition, sort (stably) and keep the first `k` rows. -/
def windowTop (k : Nat) [DecidableEq κ] (key : α → κ) (m : α → Nat)
    (rows : List α) : List α :=
  ((rows.map key).dedup).flatMap
    (fun c => ((rows.filter (fun r => decide (key r = c))).insertionSort (descBy m)).take k)

/-- `WHERE v = (SELECT MAX(v) FROM ...)`: rows whose value equals the
maximum over the whole set (no rows when the set is empty, since the MAX
subquery is then NULL). -/
def maxFilter [LinearOrder γ] (val : α → γ) (l : List α) : List α :=
  l.filter (fun r => decide ((l.map val).maximum = (val r : WithBot γ)))

/-- Q1 (source lines 171-175): busiest airline over the active set. -/
def df_q1 (active : List EnrichedFlight) : List (Option String × Nat) :=
  ((groupCounts (fun r => r.airline_name) (fun r => r.airline_name.isSome) active).insertionSort
    (descBy (fun g => g.2))).take 1

/-- Q2 grouping stage (source lines 181-183): group the active set by
(origin continent, destination continent, airline name), count the
non-NULL airline names, order by count descending. -/
def q2_grouped (active : List EnrichedFlight) :
    List ((Option String × Option String × Option String) × Nat) :=
  (groupCounts
      (fun r => (r.origin_airport_continent, r.destination_airport_continent, r.airline_name))
      (fun r => r.airline_name.isSome) active).insertionSort (descBy (fun g => g.2))

/-- Q2 regional stage (source lines 184-188): keep only groups whose origin
and destination continents are equal (and non-NULL, per SQL equality),
then rename/drop to (continent, airline, count). -/
def q2_regional (active : List EnrichedFlight) : List (Option String × Option String × Nat) :=
  ((q2_grouped active).filter (fun g => sqlEq g.1.1 g.1.2.1)).map
    (fun g => (g.1.2.1, g.1.2.2, g.2))

/-- Q2 window stage (source lines 194-202): rank 1 per continent by count
descending. -/
def q2_rank1 (active : List EnrichedFlight) : List (Option String × Option String × Nat) :=
  windowTop 1 (fun g => g.1) (fun g => g.2.2) (q2_regional active)

/-- Q2 (source lines 181-205): after the window, left join the continent
table on the code and drop the code column; output rows are
(airline name, number of flights, continent display name). -/
def df_q2 (active : List EnrichedFlight) : List (Option String × Nat × Option String) :=
  leftJoin (q2_rank1 active) continentData
    (fun g p => sqlEq g.1 (some p.2))
    (fun g p => (g.2.1, g.2.2, some p.1))
    (fun g => (g.2.1, g.2.2, none))

/-- Q3 (source lines 211-214): active rows whose distance equals the
maximum distance over the active set. -/
noncomputable def df_q3 (active : List EnrichedFlight) : List EnrichedFlight :=
  maxFilter (fun r => r.distance) active

/-- Q4 grouping stage (source lines 222-227): keep rows with distance > 0,
group by origin continent, average the distance (`AVG` = sum / count). -/
noncomputable def q4_groups (df : List EnrichedFlight) : List (Option String × ℝ) :=
  let pos := df.filter (fun r => decide (0 < r.distance))
  ((pos.map (fun r => r.origin_airport_continent)).dedup).map
    (fun c => (c,
      ((pos.filter (fun r => decide (r.origin_airport_continent = c))).map
          (fun r => r.distance)).sum /
        (((pos.filter (fun r => decide (r.origin_airport_continent = c))).length : ℝ))))

/-- Q4 (source lines 222-230): attach the continent display name (left
join on the code) and drop the code columns; output rows are
(mean distance, continent display name). -/
noncomputable def df_q4 (df : List EnrichedFlight) : List (ℝ × Option String) :=
  leftJoin (q4_groups df) continentData
    (fun g p => sqlEq g.1 (some p.2))
    (fun g p => (g.2, some p.1))
    (fun g => (g.2, none))

/-- Q5 (source lines 236-242): top aircraft name by active flight count. -/
def df_q5 (active : List EnrichedFlight) : List (Option String × Nat) :=
  ((groupCounts (fun r => r.aircraft_name) (fun r => r.aircraft_name.isSome) active).insertionSort
    (descBy (fun g => g.2))).take 1

/-- Q6 grouping stage (source lines 248-250): group the full enriched set
by (airline name, aircraft name), count non-NULL airline names, order by
count descending. -/
def q6_grouped (df : List EnrichedFlight) :
    List ((Option String × Option String) × Nat) :=
  (groupCounts (fun r => (r.airline_name, r.aircraft_name))
      (fun r => r.airline_name.isSome) df).insertionSort (descBy (fun g => g.2))

/-- Q6 null filters (source lines 251-252): drop groups with a NULL airline
or NULL aircraft. -/
def q6_filtered (df : List EnrichedFlight) :
    List ((Option String × Option String) × Nat) :=
  ((q6_grouped df).filter (fun g => g.1.1.isSome)).filter (fun g => g.1.2.isSome)

/-- Q6 (source lines 248-266): ranks 1-3 per airline by count descending. -/
def df_q6 (df : List EnrichedFlight) : List ((Option String × Option String) × Nat) :=
  windowTop 3 (fun g => g.1.1) (fun g => g.2) (q6_filtered df)

/-- QB departures stage (source lines 272-276): per origin-airport flight
count; `COUNT(id)` counts the non-NULL ids, and `id` is a non-NULL column,
so every group member is counted. -/
def qb_departures (df : List EnrichedFlight) : List (Option String × Nat) :=
  groupCounts (fun r => r.origin_airport_iata) (fun _ => true) df

/-- QB arrivals stage (source lines 278-282). -/
def qb_arrivals (df : List EnrichedFlight) : List (Option String × Nat) :=
  groupCounts (fun r => r.destination_airport_iata) (fun _ => true) df

/-- QB joined stage (source lines 285-293): drop the NULL airport groups,
inner join departures with arrivals on the airport code, compute the
absolute difference, keep (airport code, difference). -/
def qb_pairs (df : List EnrichedFlight) : List (Option String × ℤ) :=
  (innerJoin ((qb_departures df).filter (fun g => g.1.isSome))
      ((qb_arrivals df).filter (fun g => g.1.isSome))
      (fun a b => sqlEq a.1 b.1)
      (fun a b => (b.1, a.2, b.2))).map
    (fun t => (t.1, |(t.2.1 : ℤ) - (t.2.2 : ℤ)|))

/-- QB (source lines 272-301): rows of the joined stage whose difference
equals the maximum difference. -/
def df_qb (df : List EnrichedFlight) : List (Option String × ℤ) :=
  maxFilter (fun p => p.2) (qb_pairs df)

/-- The GeoDistance contract of the specification: haversine great-circle
distance in kilometres, with the repository's Earth-radius approximation
constant 6373.0 km, over coordinates given in degrees. -/
noncomputable def haversineSpec (lat1 lon1 lat2 lon2 : ℝ) : ℝ :=
  let R : ℝ := 6373.0
  let phi1 := radians lat1
  let lam1 := radians lon1
  let phi2 := radians lat2
  let lam2 := radians lon2
  let a := Real.sin ((phi2 - phi1) / 2) ^ 2 +
    Real.cos phi1 * Real.cos phi2 * Real.sin ((lam2 - lam1) / 2) ^ 2
  R * (2 * atan2 (Real.sqrt a) (Real.sqrt (1 - a)))

/-! Concrete sample rows used by the witness and counterexample theorems. -/

/-- An active enriched flight with equal non-NULL continents and a NULL
airline name (no airline-catalog match). -/
def eQ2 : EnrichedFlight :=
  ⟨"1", some "AAA", some "BBB", none, 0, none, none, some "EU", none, none, some "EU",
   0, none, none, none⟩

/-- An enriched flight from airport AAA to airport BBB. -/
def eAB : EnrichedFlight :=
  ⟨"1", some "AAA", some "BBB", none, 0, none, none, none, none, none, none,
   -1, none, none, none⟩

/-- An enriched flight from airport BBB to airport AAA. -/
def eBA : EnrichedFlight :=
  ⟨"2", some "BBB", some "AAA", none, 0, none, none, none, none, none, none,
   -1, none, none, none⟩

/-- An enriched flight with a non-NULL airline and aircraft name. -/
def eQ6 : EnrichedFlight :=
  ⟨"1", some "AAA", some "BBB", none, 0, none, none, none, none, none, none,
   0, some "A320", none, some "AL"⟩

/-- A cleaned raw flight whose destination is airport AAA. -/
def fAAA : Flight := ⟨"1", some "BBB", some "AAA", none, some "AA", none, 0⟩

/-- An airport catalog in which two rows share the IATA code AAA. -/
def apDup : List Airport :=
  [⟨some "AAA", some 1, some 2, some "EU"⟩, ⟨some "AAA", some 3, some 4, some "EU"⟩]

/-- A pre-airline-join flight row with the given airline IATA code and all
enrichment columns NULL. -/
def faWith (iata : Option String) : FlightAircraft :=
  ⟨⟨⟨⟨⟨"1", some "AAA", some "BBB", none, iata, none, 0⟩, none, none, none⟩,
     none, none, none⟩, 0⟩, none, none⟩

end FlightPipeline

namespace FlightPipeline

/-! ### Generic lemmas about the SQL building blocks -/

theorem sqlEq_iff {x y : Option String} :
    sqlEq x y = true ↔ ∃ s, x = some s ∧ y = some s := by
  cases x <;> cases y <;> simp [sqlEq]
  exact eq_comm

theorem sqlNotIn_iff {x : Option String} {vs : List String} :
    sqlNotIn x vs = true ↔ ∃ s, x = some s ∧ s ∉ vs := by
  cases x <;> simp [sqlNotIn]

theorem mem_leftJoin {xs : List α} {ys : List β} {p : α → β → Bool}
    {mk : α → β → γ} {mkNull : α → γ} {r : γ} :
    r ∈ leftJoin xs ys p mk mkNull ↔
      ∃ x ∈ xs, (∃ m ∈ ys.filter (p x), r = mk x m) ∨
        (ys.filter (p x) = [] ∧ r = mkNull x) := by
  have hblock : ∀ x : α,
      (r ∈ match ys.filter (p x) with
            | [] => [mkNull x]
            | ms => ms.map (mk x)) ↔
        ((∃ m ∈ ys.filter (p x), r = mk x m) ∨
          (ys.filter (p x) = [] ∧ r = mkNull x)) := by
    intro x
    rcases hys : ys.filter (p x) with _ | ⟨m, ms⟩
    · simp [hys]
    · simp only [hys, List.mem_map, List.mem_cons]
      aesop
  simp only [leftJoin, List.mem_flatMap]
  constructor
  · rintro ⟨x, hx, hr⟩
    exact ⟨x, hx, (hblock x).mp hr⟩
  · rintro ⟨x, hx, h⟩
    exact ⟨x, hx, (hblock x).mpr h⟩

theorem mkNull_mem_leftJoin {xs : List α} {ys : List β} {p : α → β → Bool}
    {mk : α → β → γ} {mkNull : α → γ} {x : α} (hx : x ∈ xs)
    (hno : ys.filter (p x) = []) : mkNull x ∈ leftJoin xs ys p mk mkNull :=
  mem_leftJoin.mpr ⟨x, hx, Or.inr ⟨hno, rfl⟩⟩

theorem leftJoin_eq_map_of_unique {xs : List α} {ys : List β} {p : α → β → Bool}
    {mk : α → β → γ} {mkNull : α → γ}
    (h : ∀ x ∈ xs, (ys.filter (p x)).length ≤ 1) :
    leftJoin xs ys p mk mkNull = xs.map (fun x =>
      match ys.filter (p x) with
      | [] => mkNull x
      | m :: _ => mk x m) := by
  induction xs with
  | nil => rfl
  | cons x xs ih =>
    have hx := h x (List.mem_cons_self x xs)
    have hrest : leftJoin xs ys p mk mkNull = _ :=
      ih (fun x2 hx2 => h x2 (List.mem_cons_of_mem x hx2))
    rw [leftJoin, List.flatMap_cons] at *
    rcases hys : ys.filter (p x) with _ | ⟨m, ms⟩
    · rw [List.map_cons, hys]
      exact congrArg _ hrest
    · rcases ms with _ | ⟨m2, ms2⟩
      · rw [List.map_cons, hys]
        exact congrArg _ hrest
      · rw [hys] at hx
        simp at hx

theorem map_leftJoin_of_unique {xs : List α} {ys : List β} {p : α → β → Bool}
    {mk : α → β → γ} {mkNull : α → γ} (proj : γ → α)
    (hmk : ∀ x m, proj (mk x m) = x) (hnull : ∀ x, proj (mkNull x) = x)
    (h : ∀ x ∈ xs, (ys.filter (p x)).length ≤ 1) :
    (leftJoin xs ys p mk mkNull).map proj = xs := by
  rw [leftJoin_eq_map_of_unique h, List.map_map]
  have hpt : ∀ x ∈ xs, (proj ∘ fun x => match ys.filter (p x) with
      | [] => mkNull x
      | m :: _ => mk x m) x = id x := by
    intro x _
    rcases hys : ys.filter (p x) with _ | ⟨m, ms⟩ <;>
      simp [Function.comp, hys, hmk, hnull]
  rw [List.map_congr_left hpt, List.map_id]

theorem length_filter_sqlEq_le_one {β : Type _} (key : β → Option String)
    {ys : List β} (h : (ys.map key).Nodup) (c : Option String) :
    (ys.filter (fun y => sqlEq c (key y))).length ≤ 1 := by
  induction ys with
  | nil => simp
  | cons y ys ih =>
    rw [List.map_cons, List.nodup_cons] at h
    by_cases hy : sqlEq c (key y) = true
    · obtain ⟨s, hc, hk⟩ := sqlEq_iff.mp hy
      have hnil : ys.filter (fun y2 => sqlEq c (key y2)) = [] := by
        rw [List.filter_eq_nil_iff]
        intro a ha hsa
        obtain ⟨s2, hc2, hk2⟩ := sqlEq_iff.mp hsa
        apply h.1
        have hss : key y = key a := by
          rw [hk, hk2, ← hc]
          exact hc2
        rw [hss]
        exact List.mem_map_of_mem key ha
      rw [List.filter_cons, if_pos hy, hnil]
      simp
    · rw [List.filter_cons, if_neg hy]
      exact ih h.2

/-! ### Lemmas about grouping, windows, and the MAX filter -/

theorem groupCounts_mem [DecidableEq κ] {key : α → κ} {counted : α → Bool}
    {rows : List α} {k : κ} {n : Nat} :
    (k, n) ∈ groupCounts key counted rows ↔
      ((∃ r ∈ rows, key r = k) ∧
        n = ((rows.filter (fun r => decide (key r = k))).filter counted).length) := by
  simp only [groupCounts, List.mem_map, Prod.mk.injEq]
  constructor
  · rintro ⟨k2, hk2, hkk, hnn⟩
    rw [List.mem_dedup, List.mem_map] at hk2
    constructor
    · rw [← hkk]; exact hk2
    · rw [← hnn, hkk]
  · rintro ⟨⟨r, hr, hkey⟩, rfl⟩
    exact ⟨k, List.mem_dedup.mpr (List.mem_map.mpr ⟨r, hr, hkey⟩), rfl, rfl⟩

theorem exists_max_val [LinearOrder γ] (val : α → γ) :
    ∀ {l : List α}, l ≠ [] → ∃ r ∈ l, ∀ s ∈ l, val s ≤ val r := by
  intro l
  induction l with
  | nil => intro h; exact absurd rfl h
  | cons x xs ih =>
    intro _
    rcases hxs : xs with _ | ⟨y, ys⟩
    · exact ⟨x, List.mem_cons_self x _, by rintro s hs; rw [List.mem_singleton.mp hs]⟩
    · rw [← hxs]
      obtain ⟨r, hr, hmax⟩ := ih (by rw [hxs]; exact List.cons_ne_nil y ys)
      rcases le_total (val r) (val x) with hc | hc
      · refine ⟨x, List.mem_cons_self x _, ?_⟩
        intro s hs
        rcases List.mem_cons.mp hs with rfl | hs2
        · exact le_refl _
        · exact le_trans (hmax s hs2) hc
      · refine ⟨r, List.mem_cons_of_mem x hr, ?_⟩
        intro s hs
        rcases List.mem_cons.mp hs with rfl | hs2
        · exact hc
        · exact hmax s hs2

theorem mem_maxFilter [LinearOrder γ] {val : α → γ} {l : List α} {r : α} :
    r ∈ maxFilter val l ↔ r ∈ l ∧ ∀ s ∈ l, val s ≤ val r := by
  simp only [maxFilter, List.mem_filter]
  constructor
  · rintro ⟨hl, hd⟩
    have hmax := List.maximum_eq_coe_iff.mp (of_decide_eq_true hd)
    exact ⟨hl, fun s hs => hmax.2 (val s) (List.mem_map_of_mem val hs)⟩
  · rintro ⟨hl, hb⟩
    refine ⟨hl, decide_eq_true (List.maximum_eq_coe_iff.mpr ⟨List.mem_map_of_mem val hl, ?_⟩)⟩
    rintro a ha
    rcases List.mem_map.mp ha with ⟨s, hs, rfl⟩
    exact hb s hs

theorem maxFilter_ne_nil [LinearOrder γ] {val : α → γ} {l : List α} (h : l ≠ []) :
    maxFilter val l ≠ [] := by
  obtain ⟨r, hr, hmax⟩ := exists_max_val val h
  intro hnil
  have hmem := mem_maxFilter.mpr ⟨hr, hmax⟩
  rw [hnil] at hmem
  exact absurd hmem (List.not_mem_nil r)

end FlightPipeline

namespace FlightPipeline

theorem flatMap_filter_of_key [DecidableEq κ] {ks : List κ} (hnd : ks.Nodup)
    (B : κ → List α) (key : α → κ) (hB : ∀ k, ∀ a ∈ B k, key a = k) (c : κ) :
    (ks.flatMap B).filter (fun a => decide (key a = c)) = if c ∈ ks then B c else [] := by
  induction ks with
  | nil => simp
  | cons k ks ih =>
    rw [List.flatMap_cons, List.filter_append, List.nodup_cons] at *
    by_cases hck : c = k
    · subst hck
      have h1 : (B c).filter (fun a => decide (key a = c)) = B c :=
        List.filter_eq_self.mpr (fun a ha => decide_eq_true (hB c a ha))
      have h2 : (ks.flatMap B).filter (fun a => decide (key a = c)) = [] := by
        rw [ih hnd.2, if_neg hnd.1]
      rw [h1, h2, if_pos (List.mem_cons_self c ks), List.append_nil]
    · have h1 : (B k).filter (fun a => decide (key a = c)) = [] := by
        rw [List.filter_eq_nil_iff]
        intro a ha hd
        exact hck ((of_decide_eq_true hd ▸ hB k a ha).symm ▸ rfl)
      rw [h1, ih hnd.2, List.nil_append]
      by_cases hcs : c ∈ ks
      · rw [if_pos hcs, if_pos (List.mem_cons_of_mem k hcs)]
      · rw [if_neg hcs, if_neg (by simp [List.mem_cons, hck, hcs])]

theorem mem_windowTop_iff [DecidableEq κ] {k : Nat} {key : α → κ} {m : α → Nat}
    {rows : List α} {g : α} :
    g ∈ windowTop k key m rows ↔
      (g ∈ ((rows.filter (fun r => decide (key r = key g))).insertionSort (descBy m)).take k ∧
        g ∈ rows) := by
  simp only [windowTop, List.mem_flatMap]
  constructor
  · rintro ⟨c, _, hg⟩
    have hsort := (List.take_sublist k _).mem hg
    rw [List.mem_insertionSort] at hsort
    have hf := List.mem_filter.mp hsort
    have hkey : key g = c := of_decide_eq_true hf.2
    subst hkey
    exact ⟨hg, hf.1⟩
  · rintro ⟨hg, hrows⟩
    exact ⟨key g, List.mem_dedup.mpr (List.mem_map_of_mem key hrows), hg⟩

theorem windowTop_filter [DecidableEq κ] (k : Nat) (key : α → κ) (m : α → Nat)
    (rows : List α) (c : κ) :
    (windowTop k key m rows).filter (fun g => decide (key g = c)) =
      if c ∈ (rows.map key).dedup then
        ((rows.filter (fun r => decide (key r = c))).insertionSort (descBy m)).take k
      else [] := by
  apply flatMap_filter_of_key (List.nodup_dedup _)
  intro k2 a ha
  have hsort := (List.take_sublist k _).mem ha
  rw [List.mem_insertionSort] at hsort
  exact of_decide_eq_true (List.mem_filter.mp hsort).2

theorem windowTop_le [DecidableEq κ] {k : Nat} {key : α → κ} {m : α → Nat}
    {rows : List α} {g g2 : α} (hg : g ∈ windowTop k key m rows)
    (hg2 : g2 ∈ rows) (hkey : key g2 = key g)
    (hout : g2 ∉ windowTop k key m rows) : m g2 ≤ m g := by
  have hgtake := (mem_windowTop_iff.mp hg).1
  have hsorted : List.Sorted (descBy m)
      ((rows.filter (fun r => decide (key r = key g))).insertionSort (descBy m)) :=
    List.sorted_insertionSort _ _
  have hg2sorted : g2 ∈ (rows.filter (fun r => decide (key r = key g))).insertionSort (descBy m) := by
    rw [List.mem_insertionSort]
    exact List.mem_filter.mpr ⟨hg2, decide_eq_true hkey⟩
  have hg2take : g2 ∉ ((rows.filter (fun r => decide (key r = key g))).insertionSort (descBy m)).take k := by
    intro hin
    exact hout (mem_windowTop_iff.mpr ⟨by rw [hkey]; exact hin, hg2⟩)
  have hg2drop : g2 ∈ ((rows.filter (fun r => decide (key r = key g))).insertionSort (descBy m)).drop k := by
    have hsplit := List.take_append_drop k
      ((rows.filter (fun r => decide (key r = key g))).insertionSort (descBy m))
    rw [← hsplit] at hg2sorted
    rcases List.mem_append.mp hg2sorted with hin | hin
    · exact absurd hin hg2take
    · exact hin
  exact hsorted.rel_of_mem_take_of_mem_drop hgtake hg2drop

theorem mem_take_one {l : List α} {a b : α} (ha : a ∈ l.take 1) (hb : b ∈ l.take 1) :
    a = b := by
  cases l with
  | nil => simp at ha
  | cons x xs =>
    simp only [List.take_succ_cons, List.take_zero, List.mem_singleton] at ha hb
    rw [ha, hb]

theorem windowTop_one_le [DecidableEq κ] {key : α → κ} {m : α → Nat}
    {rows : List α} {g g2 : α} (hg : g ∈ windowTop 1 key m rows)
    (hg2 : g2 ∈ rows) (hkey : key g2 = key g) : m g2 ≤ m g := by
  by_cases hin : g2 ∈ windowTop 1 key m rows
  · have h1 := (mem_windowTop_iff.mp hg).1
    have h2 := (mem_windowTop_iff.mp hin).1
    rw [hkey] at h2
    rw [mem_take_one h1 h2]
  · exact windowTop_le hg hg2 hkey hin

end FlightPipeline

namespace FlightPipeline

theorem windowTop_one_length [DecidableEq κ] (key : α → κ) (m : α → Nat)
    (rows : List α) (c : κ) :
    ((windowTop 1 key m rows).filter (fun g => decide (key g = c))).length =
      if c ∈ rows.map key then 1 else 0 := by
  rw [windowTop_filter]
  by_cases hc : c ∈ (rows.map key).dedup
  · rw [if_pos hc, if_pos (List.mem_dedup.mp hc)]
    rcases List.mem_map.mp (List.mem_dedup.mp hc) with ⟨r, hr, hkr⟩
    have hmem : r ∈ (rows.filter (fun r2 => decide (key r2 = c))).insertionSort (descBy m) := by
      rw [List.mem_insertionSort]
      exact List.mem_filter.mpr ⟨hr, decide_eq_true hkr⟩
    rcases hsort : (rows.filter (fun r2 => decide (key r2 = c))).insertionSort (descBy m) with
       _ | ⟨a, t⟩
    · rw [hsort] at hmem
      exact absurd hmem (List.not_mem_nil r)
    · simp
  · rw [if_neg hc, if_neg (fun h => hc (List.mem_dedup.mpr h))]
    rfl

theorem nodup_continent_codes : ((continentData.map (fun p => (some p.2 : Option String)))).Nodup := by
  decide

theorem df_q2_eq_map (active : List EnrichedFlight) :
    df_q2 active = (q2_rank1 active).map (fun g => (g.2.1, g.2.2, continentName g.1)) := by
  rw [df_q2, leftJoin_eq_map_of_unique (fun g _ =>
    length_filter_sqlEq_le_one (fun p : String × String => some p.2) nodup_continent_codes g.1)]
  apply List.map_congr_left
  intro g _
  rcases hf : continentData.filter (fun p => sqlEq g.1 (some p.2)) with _ | ⟨p, t⟩ <;>
    simp [continentName, hf]

theorem df_q4_eq_map (df : List EnrichedFlight) :
    df_q4 df = (q4_groups df).map (fun g => (g.2, continentName g.1)) := by
  rw [df_q4, leftJoin_eq_map_of_unique (fun g _ =>
    length_filter_sqlEq_le_one (fun p : String × String => some p.2) nodup_continent_codes g.1)]
  apply List.map_congr_left
  intro g _
  rcases hf : continentData.filter (fun p => sqlEq g.1 (some p.2)) with _ | ⟨p, t⟩ <;>
    simp [continentName, hf]

end FlightPipeline

namespace FlightPipeline

/-! ### Claim C4 -/

/-- C4: `clean_dataframe` returns exactly the subset of raw flight records
whose origin and destination IATA codes are neither the literal "NaN" /
"N/A" placeholders nor absent; it is a sublist of its input, so the record
count never increases and no attribute of a surviving record is altered. -/
theorem c4_clean_dataframe_pure_filter (df : List Flight) :
    (clean_dataframe df).Sublist df ∧
    (clean_dataframe df).length ≤ df.length ∧
    ∀ f : Flight, f ∈ clean_dataframe df ↔
      (f ∈ df ∧
        (∃ s, f.origin_airport_iata = some s ∧ s ≠ "NaN" ∧ s ≠ "N/A") ∧
        (∃ s, f.destination_airport_iata = some s ∧ s ≠ "NaN" ∧ s ≠ "N/A")) := by
  have hsub : (clean_dataframe df).Sublist df :=
    (List.filter_sublist _).trans (List.filter_sublist _)
  refine ⟨hsub, hsub.length_le, ?_⟩
  intro f
  simp only [clean_dataframe, List.mem_filter, sqlNotIn_iff, List.mem_cons,
    List.not_mem_nil, or_false]
  aesop

/-! ### Claim C3 -/

/-- C3: the `distance` UDF returns exactly −1 whenever any of its four
coordinate inputs is absent, regardless of the other three; when all four
are present it returns the haversine great-circle distance in kilometres
computed with the Earth-radius constant 6373.0 km (definition
`haversineSpec`, written from the specification's contract).  In the
embedding the function is total and pure, so there is no other outcome. -/
theorem c3_distance_contract (lat1 lon1 lat2 lon2 : Option ℝ) :
    ((lat1 = none ∨ lon1 = none ∨ lat2 = none ∨ lon2 = none) →
        distance lat1 lon1 lat2 lon2 = -1) ∧
    (∀ a b c d : ℝ, distance (some a) (some b) (some c) (some d) = haversineSpec a b c d) := by
  constructor
  · rintro (rfl | rfl | rfl | rfl)
    · rfl
    · cases lat1 <;> rfl
    · cases lat1 <;> cases lon1 <;> rfl
    · cases lat1 <;> cases lon1 <;> cases lat2 <;> rfl
  · intro a b c d
    rfl

/-- Witness for C3: a concrete absent input yields −1, and a concrete
fully-present input matches the haversine contract. -/
theorem c3_distance_contract_witness :
    distance none (some 0) (some 0) (some 0) = -1 ∧
    distance (some 48) (some 2) (some 40) (some (-74)) = haversineSpec 48 2 40 (-74) :=
  ⟨(c3_distance_contract none (some 0) (some 0) (some 0)).1 (Or.inl rfl),
   (c3_distance_contract none (some 0) (some 0) (some 0)).2 48 2 40 (-74)⟩

/-! ### Claim C9 -/

/-- C9: the `distance` UDF is symmetric in its two coordinate pairs when
all four inputs are present. -/
theorem c9_distance_symm (a b c d : ℝ) :
    distance (some a) (some b) (some c) (some d) =
      distance (some c) (some d) (some a) (some b) := by
  have hs : ∀ u v : ℝ, Real.sin ((u - v) / 2) ^ 2 = Real.sin ((v - u) / 2) ^ 2 := by
    intro u v
    rw [show (u - v) / 2 = -((v - u) / 2) by ring, Real.sin_neg, neg_sq]
  simp only [distance]
  rw [hs (radians c) (radians a), hs (radians d) (radians b),
    mul_comm (Real.cos (radians a)) (Real.cos (radians c))]

end FlightPipeline

namespace FlightPipeline

theorem atan2_nonneg {y x : ℝ} (hy : 0 ≤ y) (hx : 0 ≤ x) : 0 ≤ atan2 y x := by
  rw [atan2]
  split_ifs with h1 h2 h3 h4
  · calc (0 : ℝ) = Real.arctan 0 := Real.arctan_zero.symm
      _ ≤ _ := Real.arctan_strictMono.monotone (div_nonneg hy (le_of_lt h1))
  all_goals linarith [Real.pi_pos]

theorem atan2_le_pi_div_two {y x : ℝ} (hy : 0 ≤ y) (hx : 0 ≤ x) :
    atan2 y x ≤ Real.pi / 2 := by
  rw [atan2]
  split_ifs with h1 h2 h3 h4
  · exact le_of_lt (Real.arctan_lt_pi_div_two _)
  all_goals linarith [Real.pi_pos]

/-! ### Claim C10 -/

/-- C10: the `distance` UDF never yields NULL (it is total into ℝ) and its
value is either exactly −1 or lies in the closed interval [0, π·6373]; in
particular −1 is the only negative value it can produce.  The second
conjunct transports the invariant to the `distance` column of every row
produced by `add_distance_dataframe`. -/
theorem c10_distance_range :
    (∀ lat1 lon1 lat2 lon2 : Option ℝ,
      distance lat1 lon1 lat2 lon2 = -1 ∨
        (0 ≤ distance lat1 lon1 lat2 lon2 ∧
          distance lat1 lon1 lat2 lon2 ≤ Real.pi * 6373)) ∧
    (∀ (df : List Flight) (ap : List Airport), ∀ r ∈ add_distance_dataframe df ap,
      r.distance = -1 ∨ (0 ≤ r.distance ∧ r.distance ≤ Real.pi * 6373)) := by
  have hfun : ∀ lat1 lon1 lat2 lon2 : Option ℝ,
      distance lat1 lon1 lat2 lon2 = -1 ∨
        (0 ≤ distance lat1 lon1 lat2 lon2 ∧
          distance lat1 lon1 lat2 lon2 ≤ Real.pi * 6373) := by
    intro lat1 lon1 lat2 lon2
    rcases lat1 with _ | a
    · exact Or.inl rfl
    rcases lon1 with _ | b
    · exact Or.inl rfl
    rcases lat2 with _ | c
    · exact Or.inl rfl
    rcases lon2 with _ | d
    · exact Or.inl rfl
    right
    simp only [distance]
    have hy := Real.sqrt_nonneg (Real.sin ((radians c - radians a) / 2) ^ 2 +
      Real.cos (radians a) * Real.cos (radians c) *
        Real.sin ((radians d - radians b) / 2) ^ 2)
    have hx := Real.sqrt_nonneg (1 - (Real.sin ((radians c - radians a) / 2) ^ 2 +
      Real.cos (radians a) * Real.cos (radians c) *
        Real.sin ((radians d - radians b) / 2) ^ 2))
    have h0 := atan2_nonneg hy hx
    have h1 := atan2_le_pi_div_two hy hx
    constructor
    · linarith
    · linarith
  refine ⟨hfun, ?_⟩
  intro df ap r hr
  simp only [add_distance_dataframe] at hr
  rcases List.mem_map.mp hr with ⟨g, _, rfl⟩
  simpa [withDistance] using hfun g.origin_latitude_deg g.origin_longitude_deg
    g.destination_latitude_deg g.destination_longitude_deg

/-- Witness for C10: a concrete enriched row (a flight joined against an
empty airport catalog) carries a distance that is −1 or in range. -/
theorem c10_distance_range_witness :
    withDistance (originNull (destNull fAAA)) ∈ add_distance_dataframe [fAAA] [] ∧
    ((withDistance (originNull (destNull fAAA))).distance = -1 ∨
      (0 ≤ (withDistance (originNull (destNull fAAA))).distance ∧
        (withDistance (originNull (destNull fAAA))).distance ≤ Real.pi * 6373)) := by
  have hmem : withDistance (originNull (destNull fAAA)) ∈ add_distance_dataframe [fAAA] [] := by
    show withDistance (originNull (destNull fAAA)) ∈ [withDistance (originNull (destNull fAAA))]
    exact List.mem_singleton.mpr rfl
  exact ⟨hmem, c10_distance_range.2 [fAAA] [] _ hmem⟩

end FlightPipeline

namespace FlightPipeline

theorem q4_groups_mem {df : List EnrichedFlight} {c : Option String} {μ : ℝ} :
    (c, μ) ∈ q4_groups df ↔
      (df.filter (fun r => decide (r.origin_airport_continent = c) &&
          decide (0 < r.distance)) ≠ [] ∧
        μ = ((df.filter (fun r => decide (r.origin_airport_continent = c) &&
            decide (0 < r.distance))).map (fun r => r.distance)).sum /
          ((df.filter (fun r => decide (r.origin_airport_continent = c) &&
            decide (0 < r.distance))).length : ℝ)) := by
  have hgrp : (df.filter (fun r => decide (0 < r.distance))).filter
        (fun r => decide (r.origin_airport_continent = c)) =
      df.filter (fun r => decide (r.origin_airport_continent = c) &&
        decide (0 < r.distance)) :=
    List.filter_filter _ _
  simp only [q4_groups, List.mem_map, Prod.mk.injEq]
  constructor
  · rintro ⟨c2, hc2, hcc, hμ⟩
    subst hcc
    rw [List.mem_dedup, List.mem_map] at hc2
    obtain ⟨r, hr, hkr⟩ := hc2
    have hmem : r ∈ df.filter (fun r => decide (r.origin_airport_continent = c2) &&
        decide (0 < r.distance)) := by
      rw [← hgrp]
      exact List.mem_filter.mpr ⟨hr, decide_eq_true hkr⟩
    exact ⟨List.ne_nil_of_mem hmem, by rw [← hμ, hgrp]⟩
  · rintro ⟨hne, hμ⟩
    obtain ⟨r, hr⟩ := List.exists_mem_of_ne_nil _ hne
    rw [← hgrp] at hr
    obtain ⟨hpos, hkey⟩ := List.mem_filter.mp hr
    refine ⟨c, List.mem_dedup.mpr (List.mem_map.mpr ⟨r, hpos, of_decide_eq_true hkey⟩),
      rfl, ?_⟩
    rw [hgrp, ← hμ]

/-! ### Claim C5 -/

/-- C5: a pair (mean, continent display name) belongs to Q4's result iff
there is a continent code whose group of rows with distance strictly
greater than 0 is non-empty, the mean is the arithmetic mean (sum divided
by count) of exactly those rows' distances, and the display name is the
one the continent table attaches to that code.  Rows with distance ≤ 0
(the −1 sentinel and zero-length flights) never contribute. -/
theorem c5_q4_mean (df : List EnrichedFlight) (μ : ℝ) (nm : Option String) :
    (μ, nm) ∈ df_q4 df ↔
      ∃ c : Option String, nm = continentName c ∧
        df.filter (fun r => decide (r.origin_airport_continent = c) &&
          decide (0 < r.distance)) ≠ [] ∧
        μ = ((df.filter (fun r => decide (r.origin_airport_continent = c) &&
            decide (0 < r.distance))).map (fun r => r.distance)).sum /
          ((df.filter (fun r => decide (r.origin_airport_continent = c) &&
            decide (0 < r.distance))).length : ℝ) := by
  rw [df_q4_eq_map]
  simp only [List.mem_map, Prod.mk.injEq]
  constructor
  · rintro ⟨⟨c, v⟩, hg, hv, hnm⟩
    obtain ⟨h1, h2⟩ := q4_groups_mem.mp hg
    exact ⟨c, hnm.symm, h1, by rw [← hv]; exact h2⟩
  · rintro ⟨c, hnm, h1, h2⟩
    exact ⟨(c, μ), q4_groups_mem.mpr ⟨h1, h2⟩, rfl, hnm.symm⟩

/-! ### Claim C8 -/

/-- C8: on empty input sets all seven queries return the empty result set
(and in the embedding no error is possible, all definitions being total);
moreover Q4 yields no row at all when no row has positive distance, so the
mean is never taken over an empty group. -/
theorem c8_empty_inputs :
    df_q1 [] = [] ∧ df_q2 [] = [] ∧ df_q3 [] = [] ∧ df_q4 [] = [] ∧
    df_q5 [] = [] ∧ df_q6 [] = [] ∧ df_qb [] = [] ∧
    ∀ df : List EnrichedFlight,
      df_q4 (df.filter (fun r => decide (r.distance ≤ 0))) = [] := by
  refine ⟨rfl, rfl, rfl, rfl, rfl, rfl, rfl, ?_⟩
  intro df
  rw [df_q4_eq_map]
  have hnil : (df.filter (fun r => decide (r.distance ≤ 0))).filter
      (fun r => decide (0 < r.distance)) = [] := by
    rw [List.filter_eq_nil_iff]
    intro r hr hpos
    have h1 := of_decide_eq_true (List.mem_filter.mp hr).2
    have h2 := of_decide_eq_true hpos
    linarith
  simp [q4_groups, hnil]

end FlightPipeline

namespace FlightPipeline

theorem mem_innerJoin {xs : List α} {ys : List β} {p : α → β → Bool}
    {mk : α → β → γ} {g : γ} :
    g ∈ innerJoin xs ys p mk ↔ ∃ x ∈ xs, ∃ y ∈ ys, p x y = true ∧ g = mk x y := by
  simp only [innerJoin, List.mem_flatMap, List.mem_map, List.mem_filter]
  constructor
  · rintro ⟨x, hx, y, ⟨hy, hp⟩, rfl⟩
    exact ⟨x, hx, y, hy, hp, rfl⟩
  · rintro ⟨x, hx, y, hy, hp, rfl⟩
    exact ⟨x, hx, y, ⟨hy, hp⟩, rfl⟩

theorem qb_pairs_ne_nil_iff {df : List EnrichedFlight} :
    qb_pairs df ≠ [] ↔ ∃ a : String,
      (∃ r ∈ df, r.origin_airport_iata = some a) ∧
      (∃ r2 ∈ df, r2.destination_airport_iata = some a) := by
  rw [qb_pairs]
  constructor
  · intro h
    obtain ⟨g, hg⟩ := List.exists_mem_of_ne_nil _ h
    rcases List.mem_map.mp hg with ⟨t, ht, _⟩
    rcases mem_innerJoin.mp ht with ⟨⟨k1, n1⟩, hx, ⟨k2, n2⟩, hy, hp, _⟩
    obtain ⟨hxg, _⟩ := List.mem_filter.mp hx
    obtain ⟨hyg, _⟩ := List.mem_filter.mp hy
    obtain ⟨a, hx1, hy1⟩ := sqlEq_iff.mp hp
    subst hx1
    subst hy1
    rw [qb_departures] at hxg
    rw [qb_arrivals] at hyg
    obtain ⟨⟨r, hr, hkr⟩, _⟩ := groupCounts_mem.mp hxg
    obtain ⟨⟨r2, hr2, hkr2⟩, _⟩ := groupCounts_mem.mp hyg
    exact ⟨a, ⟨r, hr, hkr⟩, ⟨r2, hr2, hkr2⟩⟩
  · rintro ⟨a, ⟨r, hr, hkr⟩, ⟨r2, hr2, hkr2⟩⟩
    have hdep : ((some a : Option String),
        ((df.filter (fun r3 => decide (r3.origin_airport_iata = some a))).filter
          (fun _ => true)).length) ∈ (qb_departures df).filter (fun g => g.1.isSome) := by
      refine List.mem_filter.mpr ⟨?_, rfl⟩
      rw [qb_departures]
      exact groupCounts_mem.mpr ⟨⟨r, hr, hkr⟩, rfl⟩
    have harr : ((some a : Option String),
        ((df.filter (fun r3 => decide (r3.destination_airport_iata = some a))).filter
          (fun _ => true)).length) ∈ (qb_arrivals df).filter (fun g => g.1.isSome) := by
      refine List.mem_filter.mpr ⟨?_, rfl⟩
      rw [qb_arrivals]
      exact groupCounts_mem.mpr ⟨⟨r2, hr2, hkr2⟩, rfl⟩
    refine List.ne_nil_of_mem (List.mem_map.mpr ⟨_, mem_innerJoin.mpr
      ⟨_, hdep, _, harr, sqlEq_iff.mpr ⟨a, rfl, rfl⟩, rfl⟩, rfl⟩)

/-! ### Claim C1 -/

/-- Counterexample to C1 as stated: the enriched set containing the single
flight from airport AAA to airport BBB is non-empty, yet QB returns the
empty result set — the departures/arrivals join is an inner join, and no
airport occurs both as an origin and as a destination. -/
theorem c1_counterexample : ([eAB] : List EnrichedFlight) ≠ [] ∧ df_qb [eAB] = [] :=
  ⟨List.cons_ne_nil eAB [], rfl⟩

/-- C1 (amended): Q3 behaves as claimed — non-empty on every non-empty
active set, returning exactly the rows of maximal distance.  QB returns
exactly the rows of its joined departure/arrival stage whose difference is
maximal, and is non-empty exactly when that joined stage is non-empty,
i.e. when some airport occurs both as an origin and as a destination of
the enriched set (not whenever the enriched set itself is non-empty). -/
theorem c1_q3_qb_max (active df : List EnrichedFlight) :
    (active ≠ [] → df_q3 active ≠ []) ∧
    (∀ r : EnrichedFlight, r ∈ df_q3 active ↔
      (r ∈ active ∧ ∀ s ∈ active, s.distance ≤ r.distance)) ∧
    (qb_pairs df ≠ [] → df_qb df ≠ []) ∧
    (∀ p : Option String × ℤ, p ∈ df_qb df ↔
      (p ∈ qb_pairs df ∧ ∀ q2 ∈ qb_pairs df, q2.2 ≤ p.2)) ∧
    (qb_pairs df ≠ [] ↔ ∃ a : String,
      (∃ r ∈ df, r.origin_airport_iata = some a) ∧
      (∃ r2 ∈ df, r2.destination_airport_iata = some a)) :=
  ⟨fun h => maxFilter_ne_nil h, fun _ => mem_maxFilter,
   fun h => maxFilter_ne_nil h, fun _ => mem_maxFilter, qb_pairs_ne_nil_iff⟩

/-- Witness for C1: a non-empty active set on which Q3 is non-empty, and an
enriched set with an airport on both sides on which QB is non-empty. -/
theorem c1_q3_qb_max_witness : df_q3 [eQ6] ≠ [] ∧ df_qb [eAB, eBA] ≠ [] :=
  ⟨(c1_q3_qb_max [eQ6] []).1 (List.cons_ne_nil _ _),
   (c1_q3_qb_max [] [eAB, eBA]).2.2.1 (by decide)⟩

end FlightPipeline

namespace FlightPipeline

/-! ### Claim C7 -/

/-- C7: Q6 counts the full enriched set grouped by (airline, aircraft),
excludes groups with a NULL airline or NULL aircraft, and returns for each
airline at most three rows; every returned row is one of the surviving
groups, its count is the exact number of enriched flights in that group,
and the counts of the returned rows dominate the count of every group of
the same airline that was not returned (ranks 1-3 by count descending). -/
theorem c7_q6_top3 (df : List EnrichedFlight) :
    (∀ a : Option String, ((df_q6 df).filter (fun g => decide (g.1.1 = a))).length ≤ 3) ∧
    (∀ g ∈ df_q6 df, g ∈ q6_filtered df ∧
      (∃ al ac, g.1 = (some al, some ac)) ∧
      g.2 = (df.filter (fun r => decide ((r.airline_name, r.aircraft_name) = g.1))).length) ∧
    (∀ g ∈ df_q6 df, ∀ g2 ∈ q6_filtered df, g2.1.1 = g.1.1 →
      g2 ∉ df_q6 df → g2.2 ≤ g.2) := by
  refine ⟨?_, ?_, ?_⟩
  · intro a
    rw [df_q6, windowTop_filter]
    split_ifs
    · exact List.length_take_le 3 _
    · simp
  · intro g hg
    obtain ⟨⟨k1, k2⟩, n⟩ := g
    rw [df_q6] at hg
    have hmem := (mem_windowTop_iff.mp hg).2
    refine ⟨hmem, ?_⟩
    have h2 := List.mem_filter.mp hmem
    have h3 := List.mem_filter.mp h2.1
    obtain ⟨al, hal⟩ := Option.isSome_iff_exists.mp h3.2
    obtain ⟨ac, hac⟩ := Option.isSome_iff_exists.mp h2.2
    have hg6 : ((k1, k2), n) ∈ q6_grouped df := h3.1
    rw [q6_grouped, List.mem_insertionSort] at hg6
    obtain ⟨_, hn⟩ := groupCounts_mem.mp hg6
    dsimp only at hal hac ⊢
    refine ⟨⟨al, ac, by rw [hal, hac]⟩, ?_⟩
    rw [hn]
    refine congrArg List.length (List.filter_eq_self.mpr ?_)
    intro r hr
    have hkey := of_decide_eq_true (List.mem_filter.mp hr).2
    have h5 : r.airline_name = k1 := congrArg Prod.fst hkey
    rw [h5, hal]
    rfl
  · intro g hg g2 hg2 hkey hout
    rw [df_q6] at hg hout
    exact windowTop_le hg hg2 hkey hout

/-- Witness for C7: the single-flight enriched set with a non-NULL airline
and aircraft, at the returned row ((AL, A320), 1). -/
theorem c7_q6_top3_witness :
    ((((some "AL" : Option String), (some "A320" : Option String)), 1) ∈ q6_filtered [eQ6] ∧
      (∃ al ac, (((some "AL" : Option String), (some "A320" : Option String))) = (some al, some ac)) ∧
      1 = ([eQ6].filter (fun r => decide ((r.airline_name, r.aircraft_name) =
        ((some "AL" : Option String), (some "A320" : Option String))))).length) :=
  (c7_q6_top3 [eQ6]).2.1 (((some "AL" : Option String), (some "A320" : Option String)), 1)
    (by decide)

end FlightPipeline

namespace FlightPipeline

theorem q2_regional_mem {active : List EnrichedFlight} {c : String}
    {a : Option String} {n : Nat} :
    ((some c : Option String), a, n) ∈ q2_regional active ↔
      ((∃ r ∈ active, (r.origin_airport_continent, r.destination_airport_continent,
          r.airline_name) = (some c, some c, a)) ∧
        n = ((active.filter (fun r => decide ((r.origin_airport_continent,
            r.destination_airport_continent, r.airline_name) = (some c, some c, a)))).filter
          (fun r => r.airline_name.isSome)).length) := by
  rw [q2_regional]
  simp only [List.mem_map, List.mem_filter]
  constructor
  · rintro ⟨⟨⟨o, d, a2⟩, n2⟩, ⟨hg, hsql⟩, heq⟩
    rw [Prod.mk.injEq, Prod.mk.injEq] at heq
    obtain ⟨hd, ha2, hn2⟩ := heq
    dsimp only at hd ha2 hn2 hsql
    subst hd
    subst ha2
    subst hn2
    obtain ⟨s, ho, hds⟩ := sqlEq_iff.mp hsql
    obtain rfl : c = s := Option.some_injective _ hds
    subst ho
    rw [q2_grouped, List.mem_insertionSort] at hg
    exact groupCounts_mem.mp hg
  · rintro ⟨⟨r, hr, hkey⟩, hn⟩
    refine ⟨((some c, some c, a), n), ⟨?_, ?_⟩, rfl⟩
    · rw [q2_grouped, List.mem_insertionSort]
      exact groupCounts_mem.mpr ⟨⟨r, hr, hkey⟩, hn⟩
    · exact sqlEq_iff.mpr ⟨c, rfl, rfl⟩

/-! ### Claim C6 -/

/-- Counterexample to C6 as stated: the active set containing one flight
with equal non-NULL continents (EU) and a NULL airline name has a regional
group with exactly one flight, yet Q2 returns that group with count 0 —
`COUNT(airline_name)` counts non-NULL airline names, not flights. -/
theorem c6_counterexample :
    df_q2 [eQ2] = [((none : Option String), 0, (some "Europe" : Option String))] ∧
    ([eQ2].filter (fun r => decide ((r.origin_airport_continent,
      r.destination_airport_continent, r.airline_name) =
        ((some "EU" : Option String), (some "EU" : Option String),
          (none : Option String))))).length = 1 :=
  ⟨rfl, rfl⟩

/-- C6 (amended): Q2 groups the active set by (origin continent,
destination continent, airline), counting in each group the flights whose
airline name is non-NULL (so a NULL-airline group gets count 0); it keeps
only groups whose two continents are equal and non-NULL, returns exactly
one row per such continent — a row of the regional groups whose count is
maximal for that continent — and attaches the continent display name. -/
theorem c6_q2_regional_top (active : List EnrichedFlight) :
    df_q2 active = (q2_rank1 active).map (fun g => (g.2.1, g.2.2, continentName g.1)) ∧
    (∀ c : Option String,
      (c ∈ (q2_regional active).map (fun g => g.1) →
        ((q2_rank1 active).filter (fun g => decide (g.1 = c))).length = 1) ∧
      (c ∉ (q2_regional active).map (fun g => g.1) →
        ((q2_rank1 active).filter (fun g => decide (g.1 = c))).length = 0)) ∧
    (∀ g ∈ q2_rank1 active, g ∈ q2_regional active ∧
      ∀ g2 ∈ q2_regional active, g2.1 = g.1 → g2.2.2 ≤ g.2.2) ∧
    (∀ (c : String) (a : Option String) (n : Nat),
      ((some c : Option String), a, n) ∈ q2_regional active ↔
        ((∃ r ∈ active, (r.origin_airport_continent, r.destination_airport_continent,
            r.airline_name) = (some c, some c, a)) ∧
          n = ((active.filter (fun r => decide ((r.origin_airport_continent,
              r.destination_airport_continent, r.airline_name) = (some c, some c, a)))).filter
            (fun r => r.airline_name.isSome)).length)) := by
  refine ⟨df_q2_eq_map active, ?_, ?_, fun c a n => q2_regional_mem⟩
  · intro c
    rw [q2_rank1, windowTop_one_length]
    constructor
    · intro h
      rw [if_pos h]
    · intro h
      rw [if_neg h]
  · intro g hg
    rw [q2_rank1] at hg
    refine ⟨(mem_windowTop_iff.mp hg).2, ?_⟩
    intro g2 hg2 hk
    have h4 := windowTop_one_le hg hg2 hk
    exact h4

/-- Witness for C6: the rank-1 row of the single-flight active set is a
regional group and dominates every same-continent regional group. -/
theorem c6_q2_regional_top_witness :
    (((some "EU" : Option String), (none : Option String), 0) ∈ q2_regional [eQ2] ∧
      ∀ g2 ∈ q2_regional [eQ2],
        g2.1 = ((some "EU" : Option String), (none : Option String), 0).1 →
          g2.2.2 ≤ ((some "EU" : Option String), (none : Option String), 0).2.2) :=
  (c6_q2_regional_top [eQ2]).2.2.1 ((some "EU" : Option String), (none : Option String), 0)
    (by decide)

end FlightPipeline

namespace FlightPipeline

/-! ### Claim C2 -/

/-- Counterexample to C2 as stated, in two parts.  First, an airport
catalog in which two rows share the IATA code AAA makes the destination
join stage produce TWO output rows for one cleaned flight ("exactly once"
fails).  Second, the airline join stage drops the flight's own airline
IATA/ICAO code columns (Spark's `drop` by column name removes every
column with that name, and the join duplicated both names), so two
pre-join rows that differ only in the airline IATA code become
indistinguishable after enrichment ("retains every attribute" fails). -/
theorem c2_counterexample :
    (add_distance_dataframe [fAAA] apDup).length = 2 ∧
    add_airlines_dataframe [faWith (some "AA")] [] =
      add_airlines_dataframe [faWith (some "BB")] [] ∧
    faWith (some "AA") ≠ faWith (some "BB") := by
  refine ⟨rfl, rfl, ?_⟩
  intro h
  exact absurd
    (congrArg (fun x => x.toFlightDist.toFlightGeo.toFlightDest.toFlight.airline_iata) h)
    (by decide)

/-- C2 (amended): when the (normalised) airport catalog has pairwise
distinct IATA codes, every cleaned flight appears exactly once in the
output of each airport join stage, with all its attributes preserved
(likewise for the aircraft stage under distinct type codes); a flight with
no match in the airport or aircraft catalog is never dropped — it appears
with the newly attached attributes NULL (and the −1 distance); a flight
with no airline-catalog match is never dropped either and its attached
airline name is NULL, but the airline stage removes the flight's own
airline IATA and ICAO code attributes (dropped by name together with the
catalog's duplicate-named columns), so exactly those two attributes are
not retained. -/
theorem c2_enrichment_amended (df : List Flight) (d1 : List FlightDist)
    (d2 : List FlightAircraft) (ap : List Airport) (ac : List Aircraft)
    (al : List Airline) :
    (((refAirports ap).map Airport.iata_code).Nodup →
      (add_distance_dataframe df ap).map (fun r => r.toFlightGeo.toFlightDest.toFlight) = df) ∧
    (((refAircrafts ac).map Aircraft.aircraft_code).Nodup →
      (add_aircrafts_dataframe d1 ac).map FlightAircraft.toFlightDist = d1) ∧
    (∀ f ∈ df,
      (refAirports ap).filter (fun a => sqlEq f.destination_airport_iata a.iata_code) = [] →
      (refAirports ap).filter (fun a => sqlEq f.origin_airport_iata a.iata_code) = [] →
      (withDistance (originNull (destNull f)) ∈ add_distance_dataframe df ap ∧
        (withDistance (originNull (destNull f))).distance = -1)) ∧
    (∀ x ∈ d1,
      (refAircrafts ac).filter (fun a => sqlEq x.aircraft_code a.aircraft_code) = [] →
      aircraftNull x ∈ add_aircrafts_dataframe d1 ac) ∧
    (∀ x ∈ d2,
      (refAirlines al).filter (fun a => sqlEq x.airline_icao a.airline_icao ||
        sqlEq x.airline_iata a.airline_iata) = [] →
      enrichedOf x none ∈ add_airlines_dataframe d2 al) := by
  refine ⟨?_, ?_, ?_, ?_, ?_⟩
  · intro hnd
    rw [add_distance_dataframe, List.map_map]
    have hstep1 : (destJoin df (refAirports ap)).map FlightDest.toFlight = df :=
      map_leftJoin_of_unique FlightDest.toFlight (fun x m => rfl) (fun x => rfl)
        (fun x _ => length_filter_sqlEq_le_one Airport.iata_code hnd
          x.destination_airport_iata)
    have hstep2 : (originJoin (destJoin df (refAirports ap)) (refAirports ap)).map
        FlightGeo.toFlightDest = destJoin df (refAirports ap) :=
      map_leftJoin_of_unique FlightGeo.toFlightDest (fun x m => rfl) (fun x => rfl)
        (fun x _ => length_filter_sqlEq_le_one Airport.iata_code hnd
          x.origin_airport_iata)
    calc (originJoin (destJoin df (refAirports ap)) (refAirports ap)).map
          ((fun r => r.toFlightGeo.toFlightDest.toFlight) ∘ withDistance)
        = ((originJoin (destJoin df (refAirports ap)) (refAirports ap)).map
            FlightGeo.toFlightDest).map FlightDest.toFlight := by
          rw [List.map_map]
          exact List.map_congr_left (fun a _ => rfl)
      _ = df := by rw [hstep2, hstep1]
  · intro hnd
    rw [add_aircrafts_dataframe]
    exact map_leftJoin_of_unique FlightAircraft.toFlightDist (fun x m => rfl)
      (fun x => rfl)
      (fun x _ => length_filter_sqlEq_le_one Aircraft.aircraft_code hnd x.aircraft_code)
  · intro f hf hdest horig
    have h1 : destNull f ∈ destJoin df (refAirports ap) :=
      mkNull_mem_leftJoin hf hdest
    have h2 : originNull (destNull f) ∈
        originJoin (destJoin df (refAirports ap)) (refAirports ap) :=
      mkNull_mem_leftJoin h1 horig
    exact ⟨List.mem_map_of_mem withDistance h2, rfl⟩
  · intro x hx hno
    rw [add_aircrafts_dataframe]
    exact mkNull_mem_leftJoin hx hno
  · intro x hx hno
    rw [add_airlines_dataframe]
    exact mkNull_mem_leftJoin hx hno

/-- Witness for C2: against the empty catalogs, the single cleaned flight
projects back to itself after the airport joins, and its fully-NULL
enriched row (distance −1) is in the output. -/
theorem c2_enrichment_amended_witness :
    ((add_distance_dataframe [fAAA] []).map
      (fun r => r.toFlightGeo.toFlightDest.toFlight) = [fAAA]) ∧
    (withDistance (originNull (destNull fAAA)) ∈ add_distance_dataframe [fAAA] [] ∧
      (withDistance (originNull (destNull fAAA))).distance = -1) :=
  ⟨(c2_enrichment_amended [fAAA] [] [] [] [] []).1 List.nodup_nil,
   (c2_enrichment_amended [fAAA] [] [] [] [] []).2.2.1 fAAA
     (List.mem_singleton.mpr rfl) rfl rfl⟩

end FlightPipeline
